import Mathlib

/-
  Shallow embedding of the DynamoDB demo facade (src/utils.py, class Demo)
  together with a model of the external managed table service it delegates to.
  The facade code (set_table, create_table, add_item, get_item, query_items,
  scan_all) is translated line by line from src/utils.py; the table service
  itself is external (boto3 / DynamoDB) and is modelled from the spec, section 6.
-/

universe u v

instance instDecEqExcept {ε : Type u} {α : Type v} [DecidableEq ε] [DecidableEq α] :
    DecidableEq (Except ε α) := fun x y =>
  match x, y with
  | .ok a, .ok b =>
    if h : a = b then isTrue (by rw [h]) else isFalse (by intro hh; cases hh; exact h rfl)
  | .error a, .error b =>
    if h : a = b then isTrue (by rw [h]) else isFalse (by intro hh; cases hh; exact h rfl)
  | .ok _, .error _ => isFalse (by intro hh; cases hh)
  | .error _, .ok _ => isFalse (by intro hh; cases hh)

namespace DynamoDemo

/-- Attribute values stored in items: strings or numbers (spec, section 3). -/
inductive AttrVal where
  | S (s : String)
  | N (n : Int)
deriving DecidableEq, Repr

/-- Inclusive order on attribute values: numeric order on numbers, lexicographic
on strings; numbers sort below strings so the order is total. -/
def AttrVal.le : AttrVal → AttrVal → Bool
  | .N a, .N b => decide (a ≤ b)
  | .S a, .S b => decide (a ≤ b)
  | .N _, .S _ => true
  | .S _, .N _ => false

/-- An item is an open mapping from attribute names to values (spec, section 3).
Python kwargs dictionaries are embedded as association lists. -/
abbrev Item := List (String × AttrVal)

/-- First-match lookup of an attribute in an item. -/
def attrOf : Item → String → Option AttrVal
  | [], _ => none
  | (a, v) :: r, s => if a = s then some v else attrOf r s

/-- A key schema: one partition attribute and an optional sort attribute
(spec, section 3; hardcoded in create_table, src/utils.py lines 28-31). -/
structure KeySchema where
  partitionKey : String
  sortKey : Option String
deriving DecidableEq, Repr

/-- The key projection of an item under a schema. -/
def itemKeyOf (ks : KeySchema) (i : Item) : Option AttrVal × Option AttrVal :=
  (attrOf i ks.partitionKey, ks.sortKey.bind fun sk => attrOf i sk)

/-- Whether an item carries a value for every key attribute of the schema. -/
def keyComplete (ks : KeySchema) (i : Item) : Bool :=
  (attrOf i ks.partitionKey).isSome &&
    (match ks.sortKey with
     | none => true
     | some sk => (attrOf i sk).isSome)

/-- The state of one table held by the external service. -/
structure TableState where
  schema : KeySchema
  items : List Item
deriving DecidableEq

/-- A structured service error: machine-readable code plus message
(spec, section 6: all service calls may fail with such an error). -/
structure SvcError where
  code : String
  msg : String
deriving DecidableEq, Repr

/-- The collection of tables held by the external service, by name. -/
abbrev World := List (String × TableState)

def wGet : World → String → Option TableState
  | [], _ => none
  | (m, t) :: w, n => if m = n then some t else wGet w n

def wSet : World → String → TableState → World
  | [], n, t => [(n, t)]
  | (m, u) :: w, n, t => if m = n then (n, t) :: w else (m, u) :: wSet w n t

def resourceNotFound : SvcError :=
  ⟨"ResourceNotFoundException", "Requested resource not found"⟩

def resourceInUse : SvcError :=
  ⟨"ResourceInUseException", "Table already exists"⟩

def validationIncompleteKey : SvcError :=
  ⟨"ValidationException", "The provided key element does not match the schema"⟩

/-- Modelled from the spec: the external create-table call (spec, section 6).
Creating an existing table fails at the service boundary (section 4.1: not
idempotent); otherwise the named table is created empty with the given schema. -/
def svcCreateTable (w : World) (n : String) (ks : KeySchema) : Except SvcError World :=
  match wGet w n with
  | some _ => .error resourceInUse
  | none => .ok (wSet w n ⟨ks, []⟩)

/-- Modelled from the spec: the external put-item call (spec, sections 4.1, 6).
The item must carry a value for every key attribute, else the service rejects
the write; the write is an upsert keyed by the key attribute values. -/
def svcPutItem (w : World) (n : String) (i : Item) : Except SvcError World :=
  match wGet w n with
  | none => .error resourceNotFound
  | some t =>
    if keyComplete t.schema i then
      .ok (wSet w n ⟨t.schema,
        t.items.filter (fun j => !decide (itemKeyOf t.schema j = itemKeyOf t.schema i)) ++ [i]⟩)
    else .error validationIncompleteKey

/-- Modelled from the spec: the external get-item call (spec, sections 4.1, 6).
An incomplete key is a validation failure; a well-formed key returns the
matching item, or an empty result when no item matches. -/
def svcGetItem (w : World) (n : String) (key : Item) : Except SvcError (Option Item) :=
  match wGet w n with
  | none => .error resourceNotFound
  | some t =>
    if keyComplete t.schema key then
      .ok (t.items.find? fun j => decide (itemKeyOf t.schema j = itemKeyOf t.schema key))
    else .error validationIncompleteKey

/-- Order on items by an optional sort attribute; items lacking the attribute
sort first, so the order is total. -/
def itemLeBy (sa : Option String) (i j : Item) : Bool :=
  match sa with
  | none => true
  | some s =>
    match attrOf i s, attrOf j s with
    | none, _ => true
    | some _, none => false
    | some a, some b => AttrVal.le a b

/-- The key condition a query evaluates on each item: exact equality on the
partition attribute, conjoined with an inclusive between-condition on the
range attribute when one is supplied (spec, section 4.1). -/
def queryMatches (pk : String) (pv : AttrVal)
    (rng : Option (String × AttrVal × AttrVal)) (i : Item) : Bool :=
  decide (attrOf i pk = some pv) &&
    (match rng with
     | none => true
     | some z =>
       match attrOf i z.1 with
       | some v => AttrVal.le z.2.1 v && AttrVal.le v z.2.2
       | none => false)

/-- The attribute the service orders query results by: the queried range
attribute when a range condition is supplied, else the base sort key. -/
def sortAttrFor (t : TableState) (rng : Option (String × AttrVal × AttrVal)) : Option String :=
  match rng with
  | some z => some z.1
  | none => t.schema.sortKey

instance decItemLe (sa : Option String) :
    DecidableRel (fun i j : Item => itemLeBy sa i j = true) :=
  fun i j => inferInstanceAs (Decidable (itemLeBy sa i j = true))

/-- Modelled from the spec: the external query call (spec, sections 4.1, 6).
Returns the items satisfying the key condition, ordered ascending by the
relevant sort attribute; both indexes project all attributes, and index
resolution and cross-validation are external, so the model evaluates the
supplied attribute names directly against the full items. -/
def svcQuery (w : World) (n : String) (pk : String) (pv : AttrVal)
    (rng : Option (String × AttrVal × AttrVal)) (_idx : Option String) :
    Except SvcError (List Item) :=
  match wGet w n with
  | none => .error resourceNotFound
  | some t =>
    .ok (List.insertionSort (fun i j => itemLeBy (sortAttrFor t rng) i j = true)
      (t.items.filter (queryMatches pk pv rng)))

/-- Errors crossing the facade boundary. The first six are what the Python
code can actually raise: the re-raised botocore ClientError, the uncaught
waiter failure from wait_until_exists (not a ClientError, so the except
clause in create_table does not catch it), and the plain Python KeyError,
TypeError, IndexError and ValueError. The remaining constructors are the
typed error taxonomy of the spec (section 7); the embedded code never
constructs them, and they are present so that statements can discriminate
the spec taxonomy from what the code raises. -/
inductive PyError where
  | clientError (e : SvcError)
  | waiterError (e : SvcError)
  | keyError (k : String)
  | typeError (m : String)
  | indexError (m : String)
  | valueError (m : String)
  | configurationError
  | tableCreationError (e : SvcError)
  | itemWriteError (e : SvcError)
  | incompleteKeyError (e : SvcError)
  | itemNotFoundError
  | itemReadError (e : SvcError)
  | queryError (e : SvcError)
deriving DecidableEq, Repr

/-- Whether an error is one of the typed facade kinds of the spec taxonomy
(section 7), as opposed to a raw service or Python error. -/
def PyError.isSpecTyped : PyError → Bool
  | .configurationError => true
  | .tableCreationError _ => true
  | .itemWriteError _ => true
  | .incompleteKeyError _ => true
  | .itemNotFoundError => true
  | .itemReadError _ => true
  | .queryError _ => true
  | _ => false

/-- Log entries written by logger.error in the four catch blocks of
src/utils.py (lines 76-78, 100-103, 117-120, 155-157), carrying the
identifiers and the service code and message each call site formats. -/
inductive LogEntry where
  | createFail (tableName : String) (e : SvcError)
  | putFail (item : Item) (tableName : String) (e : SvcError)
  | getFail (key : Item) (tableName : String) (e : SvcError)
  | queryFail (partitionKeyName : String) (e : SvcError)
deriving DecidableEq

/-- The facade state: src/utils.py line 14, self.table, initially None.
A bound handle is embedded as the table name it was resolved for. -/
structure Demo where
  table : Option String
deriving DecidableEq, Repr

def nameNotSet : String := "Required parameter name not set"

def noneNotSubscriptable : String := "NoneType object is not subscriptable"

/-- src/utils.py lines 83-85: if no handle is bound, resolve one from the
resource for the given name; if one is bound, leave it unchanged. The
resource constructor is external (boto3); modelled from the spec, section 6:
resolving a handle requires a table name, so a missing name fails there with
an untyped error — the facade performs no check of its own and defines no
ConfigurationError. -/
def Demo.set_table (d : Demo) (tn : Option String) : Except PyError (Demo × String) :=
  match d.table with
  | some n => .ok (d, n)
  | none =>
    match tn with
    | some n => .ok (⟨some n⟩, n)
    | none => .error (.valueError nameNotSet)

/-- The key schema hardcoded by create_table, src/utils.py lines 28-31:
partition attribute customerID, sort attribute orderID. -/
def demoKeySchema : KeySchema := ⟨"customerID", some "orderID"⟩

/-- src/utils.py lines 16-81: create_table. The create call assigns
self.table on success and then waits until the table exists; a ClientError
from the create call is logged and re-raised with self.table unassigned,
while a waiter failure is not a ClientError, so it propagates uncaught and
unlogged with self.table already rebound to the new table. The waiter
outcome is external and passed as a parameter. -/
def Demo.create_table (d : Demo) (w : World) (tn : String)
    (waitRes : Except SvcError Unit) (log : List LogEntry) :
    Except PyError String × Demo × World × List LogEntry :=
  match svcCreateTable w tn demoKeySchema with
  | .error e => (.error (.clientError e), d, w, log ++ [LogEntry.createFail tn e])
  | .ok w2 =>
    match waitRes with
    | .ok _ => (.ok tn, ⟨some tn⟩, w2, log)
    | .error e => (.error (.waiterError e), ⟨some tn⟩, w2, log)

/-- src/utils.py lines 87-104: add_item. Binds the table via set_table, then
calls put_item; a ClientError is logged with the item, the table name and
the service code and message, and re-raised unchanged. -/
def Demo.add_item (d : Demo) (w : World) (tn : Option String) (i : Item)
    (log : List LogEntry) :
    Except PyError Unit × Demo × World × List LogEntry :=
  match Demo.set_table d tn with
  | .error e => (.error e, d, w, log)
  | .ok (d2, n) =>
    match svcPutItem w n i with
    | .error e => (.error (.clientError e), d2, w, log ++ [LogEntry.putFail i n e])
    | .ok w2 => (.ok (), d2, w2, log)

/-- src/utils.py lines 106-123: get_item. Binds the table, calls get_item;
a ClientError is logged and re-raised unchanged. The else branch returns
response["Item"]; when the service result is empty that subscript raises an
uncaught, unlogged KeyError, since the else clause of try/except/else is
outside the except clause. -/
def Demo.get_item (d : Demo) (w : World) (tn : Option String) (key : Item)
    (log : List LogEntry) :
    Except PyError Item × Demo × World × List LogEntry :=
  match Demo.set_table d tn with
  | .error e => (.error e, d, w, log)
  | .ok (d2, n) =>
    match svcGetItem w n key with
    | .error e => (.error (.clientError e), d2, w, log ++ [LogEntry.getFail key n e])
    | .ok (some i) => (.ok i, d2, w, log)
    | .ok none => (.error (.keyError "Item"), d2, w, log)

/-- src/utils.py lines 125-160: query_items. Binds the table, then builds the
key condition before the try block: when range_key_name is supplied the code
subscripts range_key_bounds at 0 and 1 unguarded, so absent bounds raise an
uncaught TypeError and too-short bounds an uncaught IndexError, both before
any service call. A ClientError from the query is logged with the partition
key name and re-raised unchanged; otherwise response["Items"] is returned. -/
def Demo.query_items (d : Demo) (w : World) (pk : String) (pv : AttrVal)
    (rk : Option String) (bounds : Option (List AttrVal)) (idx : Option String)
    (tn : Option String) (log : List LogEntry) :
    Except PyError (List Item) × Demo × World × List LogEntry :=
  match Demo.set_table d tn with
  | .error e => (.error e, d, w, log)
  | .ok (d2, n) =>
    match rk with
    | none =>
      match svcQuery w n pk pv none idx with
      | .error e => (.error (.clientError e), d2, w, log ++ [LogEntry.queryFail pk e])
      | .ok items => (.ok items, d2, w, log)
    | some r =>
      match bounds with
      | none => (.error (.typeError noneNotSubscriptable), d2, w, log)
      | some bs =>
        match bs.get? 0, bs.get? 1 with
        | some lo, some hi =>
          match svcQuery w n pk pv (some (r, lo, hi)) idx with
          | .error e => (.error (.clientError e), d2, w, log ++ [LogEntry.queryFail pk e])
          | .ok items => (.ok items, d2, w, log)
        | _, _ => (.error (.indexError "list index out of range"), d2, w, log)

/-- src/utils.py lines 162-168: scan_all is a stub whose body is pass, so it
touches nothing and returns None regardless of the table contents. -/
def Demo.scan_all (_d : Demo) (_w : World) (_tn : Option String) : Option (List Item) :=
  none

/-- The sample item of the reference scenario (spec, section 8). -/
def item331 : Item :=
  [("customerID", .S "111222"), ("orderID", .N 331),
   ("orderSum", .N 9), ("transactionID", .S "tr120")]

/-- A table in the reference schema holding the sample item. -/
def t0 : TableState := ⟨demoKeySchema, [item331]⟩

/-- A service world holding the table workshop with the sample item. -/
def w0 : World := [("workshop", t0)]

/-- A facade already bound to the table workshop. -/
def demo0 : Demo := ⟨some "workshop"⟩

/-- A complete, well-formed key that matches no stored item of w0. -/
def missKey : Item := [("customerID", .S "111222"), ("orderID", .N 999)]

/-- A waiter failure outcome for create_table. -/
def waiterFail : SvcError := ⟨"WaiterError", "Max attempts exceeded while waiting"⟩

/-- The key of an item: exactly the values the item carries for the key
attributes of the schema, as the key dictionary a caller would pass to
get_item for that item. -/
def keyOf (ks : KeySchema) (i : Item) : Item :=
  match attrOf i ks.partitionKey, ks.sortKey with
  | some v, some sk =>
    (match attrOf i sk with
     | some v2 => [(ks.partitionKey, v), (sk, v2)]
     | none => [(ks.partitionKey, v)])
  | some v, none => [(ks.partitionKey, v)]
  | none, _ => []

/-- One facade operation, for reasoning about operation sequences: bind,
create, put, get or query, with the arguments the Python methods take.
The create variant also carries the external waiter outcome. -/
inductive Op where
  | bind (tn : String)
  | create (tn : String) (waitRes : Except SvcError Unit)
  | put (tn : Option String) (i : Item)
  | get (tn : Option String) (k : Item)
  | query (pk : String) (pv : AttrVal) (rk : Option String)
      (bounds : Option (List AttrVal)) (idx : Option String) (tn : Option String)
deriving DecidableEq

def Op.isCreate : Op → Bool
  | .create _ _ => true
  | _ => false

/-- Run one operation on the facade and world, keeping the resulting state
(the state a caller observes whether the operation returned or raised). -/
def stepOp (d : Demo) (w : World) (log : List LogEntry) : Op → Demo × World × List LogEntry
  | .bind tn =>
    match Demo.set_table d (some tn) with
    | .ok (d2, _) => (d2, w, log)
    | .error _ => (d, w, log)
  | .create tn wr =>
    let r := Demo.create_table d w tn wr log
    (r.2.1, r.2.2.1, r.2.2.2)
  | .put tn i =>
    let r := Demo.add_item d w tn i log
    (r.2.1, r.2.2.1, r.2.2.2)
  | .get tn k =>
    let r := Demo.get_item d w tn k log
    (r.2.1, r.2.2.1, r.2.2.2)
  | .query pk pv rk b idx tn =>
    let r := Demo.query_items d w pk pv rk b idx tn log
    (r.2.1, r.2.2.1, r.2.2.2)

/-- Run a sequence of facade operations from a given state. -/
def runOps (d : Demo) (w : World) (log : List LogEntry) : List Op → Demo × World × List LogEntry
  | [] => (d, w, log)
  | o :: os =>
    let s := stepOp d w log o
    runOps s.1 s.2.1 s.2.2 os

theorem wGet_wSet_self (w : World) (n : String) (t : TableState) :
    wGet (wSet w n t) n = some t := by
  induction w with
  | nil => simp [wGet, wSet]
  | cons p w ih =>
    by_cases h : p.1 = n
    · simp [wGet, wSet, h]
    · simp [wGet, wSet, h, ih]

theorem find?_append_of_forall_false {α : Type u} (p : α → Bool) (l1 l2 : List α)
    (h : ∀ x ∈ l1, p x = false) :
    List.find? p (l1 ++ l2) = List.find? p l2 := by
  induction l1 with
  | nil => rfl
  | cons a l ih =>
    have ha : ¬ p a = true := by simp [h a (by simp)]
    rw [List.cons_append, List.find?_cons_of_neg _ ha]
    exact ih fun x hx => h x (List.mem_cons_of_mem a hx)

/-- C1: on the bound table workshop holding only the sample item, get_item
with the complete, well-formed key (customerID 111222, orderID 999) that
matches no stored item does not yield a typed ItemNotFoundError: the code
subscripts the empty service response and raises the untyped Python
KeyError on "Item", uncaught and unlogged. -/
theorem claim_C1_get_missing_item_raises_untyped_key_error :
    keyComplete demoKeySchema missKey = true ∧
    (Demo.get_item demo0 w0 none missKey []).1 = .error (.keyError "Item") ∧
    (Demo.get_item demo0 w0 none missKey []).1 ≠ .error .itemNotFoundError ∧
    PyError.isSpecTyped (.keyError "Item") = false ∧
    (Demo.get_item demo0 w0 none missKey []).2.2.2 = [] := by
  refine ⟨by decide, by decide, by decide, by decide, by decide⟩

/-- C7 fails on the code: with no cached handle and no table name, add_item
does not fail with the typed ConfigurationError of the spec; the missing
name surfaces as the untyped error of the external handle constructor. -/
theorem claim_C7_counterexample :
    (Demo.add_item ⟨none⟩ [] none item331 []).1 = .error (.valueError nameNotSet) ∧
    (Demo.add_item ⟨none⟩ [] none item331 []).1 ≠ .error .configurationError := by
  exact ⟨by decide, by decide⟩

/-- C7 amended: with no cached handle and no table name, each on-demand
binding operation (add_item, get_item, query_items) fails before any service
call with the untyped missing-name error of the external handle constructor
(never the typed ConfigurationError, which the code does not define), and
leaves the facade, the world and the log unchanged. -/
theorem claim_C7_amended (w : World) (i k : Item) (pk : String) (pv : AttrVal)
    (rk : Option String) (b : Option (List AttrVal)) (idx : Option String)
    (log : List LogEntry) :
    Demo.add_item ⟨none⟩ w none i log = (.error (.valueError nameNotSet), ⟨none⟩, w, log) ∧
    Demo.get_item ⟨none⟩ w none k log = (.error (.valueError nameNotSet), ⟨none⟩, w, log) ∧
    Demo.query_items ⟨none⟩ w pk pv rk b idx none log =
      (.error (.valueError nameNotSet), ⟨none⟩, w, log) :=
  ⟨rfl, rfl, rfl⟩

/-- C9 fails on the code: scan_all is a stub, so on a world whose table
holds the sample item it returns none rather than a sequence containing
every stored item. -/
theorem claim_C9_counterexample :
    Demo.scan_all demo0 w0 none = none ∧
    ¬ ∃ l, Demo.scan_all demo0 w0 none = some l ∧ item331 ∈ l :=
  ⟨rfl, fun ⟨_, h, _⟩ => Option.noConfusion h⟩

/-- C9 amended: scan_all is an unimplemented stub; it returns none (Python
None) for every facade state, world and table name, never the stored items. -/
theorem claim_C9_amended (d : Demo) (w : World) (tn : Option String) :
    Demo.scan_all d w tn = none := rfl

/-- C10: query_items with a range key name supplied and bounds absent fails,
for every facade bound to any table name and every world, with the untyped
subscript error before any service call, leaving world and log unchanged:
the unguarded indexing of the bounds pair is reachable. -/
theorem claim_C10_query_bounds_none_fails_before_service (n : String) (w : World)
    (pk : String) (pv : AttrVal) (rk : String) (idx : Option String)
    (log : List LogEntry) :
    Demo.query_items ⟨some n⟩ w pk pv (some rk) none idx none log =
      (.error (.typeError noneNotSubscriptable), ⟨some n⟩, w, log) := rfl

theorem set_table_of_bound {d : Demo} {n : String} (hb : d.table = some n)
    (tn : Option String) : Demo.set_table d tn = .ok (d, n) := by
  unfold Demo.set_table
  rw [hb]

theorem add_item_demo_of_bound {d : Demo} {n : String} (hb : d.table = some n)
    (w : World) (tn : Option String) (i : Item) (log : List LogEntry) :
    (Demo.add_item d w tn i log).2.1 = d := by
  simp only [Demo.add_item, set_table_of_bound hb]
  rcases svcPutItem w n i with e | w2 <;> rfl

theorem get_item_demo_of_bound {d : Demo} {n : String} (hb : d.table = some n)
    (w : World) (tn : Option String) (k : Item) (log : List LogEntry) :
    (Demo.get_item d w tn k log).2.1 = d := by
  simp only [Demo.get_item, set_table_of_bound hb]
  rcases svcGetItem w n k with e | i
  · rfl
  · rcases i with _ | i <;> rfl

theorem query_items_demo_of_bound {d : Demo} {n : String} (hb : d.table = some n)
    (w : World) (pk : String) (pv : AttrVal) (rk : Option String)
    (b : Option (List AttrVal)) (idx tn : Option String) (log : List LogEntry) :
    (Demo.query_items d w pk pv rk b idx tn log).2.1 = d := by
  simp only [Demo.query_items, set_table_of_bound hb]
  split
  · split <;> rfl
  · split
    · rfl
    · split
      · split <;> rfl
      · rfl

theorem stepOp_preserves_bound {d : Demo} {n : String} (hb : d.table = some n)
    (w : World) (log : List LogEntry) (o : Op) (hnc : Op.isCreate o = false) :
    (stepOp d w log o).1.table = some n := by
  cases o with
  | bind tn => simp [stepOp, set_table_of_bound hb, hb]
  | create tn wr => simp [Op.isCreate] at hnc
  | put tn i => simp [stepOp, add_item_demo_of_bound hb, hb]
  | get tn k => simp [stepOp, get_item_demo_of_bound hb, hb]
  | query pk pv rk b idx tn => simp [stepOp, query_items_demo_of_bound hb, hb]

theorem runOps_preserves_bound {n : String} (ops : List Op)
    (hops : ∀ o ∈ ops, Op.isCreate o = false) :
    ∀ d w log, d.table = some n → (runOps d w log ops).1.table = some n := by
  induction ops with
  | nil => intro d w log hb; simpa [runOps] using hb
  | cons o os ih =>
    intro d w log hb
    have h1 := stepOp_preserves_bound hb w log o (hops o (by simp))
    simp only [runOps]
    exact ih (fun x hx => hops x (by simp [hx])) _ _ _ h1

/-- C3 fails on the code: create_table rebinds unconditionally, so in the
operation sequence consisting of one successful create_table on a facade
already bound to table A, the handle ends bound to the different name B. -/
theorem claim_C3_counterexample :
    (⟨some "A"⟩ : Demo).table = some "A" ∧
    (runOps ⟨some "A"⟩ [] [] [Op.create "B" (.ok ())]).1.table = some "B" ∧
    some "B" ≠ (some "A" : Option String) := by
  refine ⟨rfl, by decide, by decide⟩

/-- C3 amended: over every sequence of operations that does not include
create_table (bind, put, get, query), once the handle is bound to a name it
is never rebound, and binding again is idempotent: set_table on a bound
facade returns the existing handle with the facade unchanged. create_table,
however, rebinds unconditionally. -/
theorem claim_C3_amended (d : Demo) (w : World) (log : List LogEntry) (ops : List Op)
    (n : String) (hb : d.table = some n) (hops : ∀ o ∈ ops, Op.isCreate o = false) :
    (∀ tn, Demo.set_table d tn = .ok (d, n)) ∧
    (runOps d w log ops).1.table = some n :=
  ⟨fun tn => set_table_of_bound hb tn, runOps_preserves_bound ops hops d w log hb⟩

theorem claim_C3_witness :
    ((⟨some "A"⟩ : Demo).table = some "A" ∧
     ∀ o ∈ [Op.bind "C", Op.put none item331, Op.get none missKey],
       Op.isCreate o = false) ∧
    (∀ tn, Demo.set_table ⟨some "A"⟩ tn = .ok (⟨some "A"⟩, "A")) ∧
    (runOps ⟨some "A"⟩ [] [] [Op.bind "C", Op.put none item331, Op.get none missKey]).1.table =
      some "A" :=
  ⟨⟨rfl, by decide⟩,
   claim_C3_amended ⟨some "A"⟩ [] [] [Op.bind "C", Op.put none item331, Op.get none missKey]
     "A" rfl (by decide)⟩

/-- C5 fails on the code: a service failure inside add_item is re-raised as
the raw service error, not translated to any of the typed failure kinds of
the spec taxonomy. -/
theorem claim_C5_counterexample :
    (Demo.add_item ⟨some "nosuch"⟩ w0 none item331 []).1 =
      .error (.clientError resourceNotFound) ∧
    PyError.isSpecTyped (.clientError resourceNotFound) = false := by
  exact ⟨by decide, by decide⟩

/-- C5 amended: every service failure raised inside create_table, add_item,
get_item or query_items is logged with the diagnostic context the code
formats (identifiers plus service code and message) and re-raised to the
caller unchanged, as the raw service error rather than a facade-typed kind;
it is never swallowed. -/
theorem claim_C5_amended (w : World) (log : List LogEntry) (nc np ng nq : String)
    (i k : Item) (pk : String) (pv : AttrVal) (idx : Option String)
    (wr : Except SvcError Unit) (e1 e2 e3 e4 : SvcError)
    (h1 : svcCreateTable w nc demoKeySchema = .error e1)
    (h2 : svcPutItem w np i = .error e2)
    (h3 : svcGetItem w ng k = .error e3)
    (h4 : svcQuery w nq pk pv none idx = .error e4) :
    Demo.create_table ⟨none⟩ w nc wr log =
      (.error (.clientError e1), ⟨none⟩, w, log ++ [LogEntry.createFail nc e1]) ∧
    Demo.add_item ⟨some np⟩ w none i log =
      (.error (.clientError e2), ⟨some np⟩, w, log ++ [LogEntry.putFail i np e2]) ∧
    Demo.get_item ⟨some ng⟩ w none k log =
      (.error (.clientError e3), ⟨some ng⟩, w, log ++ [LogEntry.getFail k ng e3]) ∧
    Demo.query_items ⟨some nq⟩ w pk pv none none idx none log =
      (.error (.clientError e4), ⟨some nq⟩, w, log ++ [LogEntry.queryFail pk e4]) := by
  refine ⟨?_, ?_, ?_, ?_⟩ <;>
    simp [Demo.create_table, Demo.add_item, Demo.get_item, Demo.query_items,
      Demo.set_table, h1, h2, h3, h4]

theorem claim_C5_amended_witness :
    (svcCreateTable w0 "workshop" demoKeySchema = .error resourceInUse ∧
     svcPutItem w0 "nosuch" item331 = .error resourceNotFound ∧
     svcGetItem w0 "nosuch" missKey = .error resourceNotFound ∧
     svcQuery w0 "nosuch" "customerID" (.S "111222") none none = .error resourceNotFound) ∧
    (Demo.create_table ⟨none⟩ w0 "workshop" (.ok ()) [] =
      (.error (.clientError resourceInUse), ⟨none⟩, w0,
        [LogEntry.createFail "workshop" resourceInUse]) ∧
     Demo.add_item ⟨some "nosuch"⟩ w0 none item331 [] =
      (.error (.clientError resourceNotFound), ⟨some "nosuch"⟩, w0,
        [LogEntry.putFail item331 "nosuch" resourceNotFound]) ∧
     Demo.get_item ⟨some "nosuch"⟩ w0 none missKey [] =
      (.error (.clientError resourceNotFound), ⟨some "nosuch"⟩, w0,
        [LogEntry.getFail missKey "nosuch" resourceNotFound]) ∧
     Demo.query_items ⟨some "nosuch"⟩ w0 "customerID" (.S "111222") none none none none [] =
      (.error (.clientError resourceNotFound), ⟨some "nosuch"⟩, w0,
        [LogEntry.queryFail "customerID" resourceNotFound])) :=
  ⟨⟨by decide, by decide, by decide, by decide⟩,
   claim_C5_amended w0 [] "workshop" "nosuch" "nosuch" "nosuch" item331 missKey
     "customerID" (.S "111222") none (.ok ()) resourceInUse resourceNotFound
     resourceNotFound resourceNotFound (by decide) (by decide) (by decide) (by decide)⟩

/-- C6 fails on the code: when the create call succeeds but the wait for the
table to become usable fails, the error reaching the caller is the uncaught
waiter failure, not TableCreationError, nothing is logged, and the facade
handle has been rebound from A to the new table B, so a partially-usable
handle is left bound. -/
theorem claim_C6_counterexample :
    (Demo.create_table ⟨some "A"⟩ [] "B" (.error waiterFail) []).2.1.table = some "B" ∧
    some "B" ≠ (some "A" : Option String) ∧
    (Demo.create_table ⟨some "A"⟩ [] "B" (.error waiterFail) []).1 =
      .error (.waiterError waiterFail) ∧
    PyError.isSpecTyped (.waiterError waiterFail) = false ∧
    (Demo.create_table ⟨some "A"⟩ [] "B" (.error waiterFail) []).2.2.2 = [] := by
  refine ⟨by decide, by decide, by decide, by decide, by decide⟩

/-- C6 amended: create_table waits for the table before returning its handle.
When the create call itself fails, the failure is logged and re-raised as
the raw service error (not TableCreationError) with the facade handle,
world and log unchanged. When the create call succeeds but the wait fails,
the waiter failure propagates uncaught and unlogged while the handle is
already rebound to the new table; on full success the handle is bound to
the new table and returned. -/
theorem claim_C6_amended (d : Demo) (w : World) (n : String) (log : List LogEntry) :
    (∀ e wr, svcCreateTable w n demoKeySchema = .error e →
      Demo.create_table d w n wr log =
        (.error (.clientError e), d, w, log ++ [LogEntry.createFail n e])) ∧
    (∀ w2 e, svcCreateTable w n demoKeySchema = .ok w2 →
      Demo.create_table d w n (.error e) log =
        (.error (.waiterError e), ⟨some n⟩, w2, log)) ∧
    (∀ w2, svcCreateTable w n demoKeySchema = .ok w2 →
      Demo.create_table d w n (.ok ()) log = (.ok n, ⟨some n⟩, w2, log)) := by
  refine ⟨fun e wr h => ?_, fun w2 e h => ?_, fun w2 h => ?_⟩ <;>
    simp [Demo.create_table, h]

theorem claim_C6_amended_witness :
    svcCreateTable [] "B" demoKeySchema = .ok [("B", ⟨demoKeySchema, []⟩)] ∧
    Demo.create_table ⟨some "A"⟩ [] "B" (.error waiterFail) [] =
      (.error (.waiterError waiterFail), ⟨some "B"⟩, [("B", ⟨demoKeySchema, []⟩)], []) :=
  ⟨by decide,
   (claim_C6_amended ⟨some "A"⟩ [] "B" []).2.1 [("B", ⟨demoKeySchema, []⟩)] waiterFail
     (by decide)⟩

theorem itemKeyOf_keyOf (ks : KeySchema) (i : Item)
    (hwf : ks.sortKey ≠ some ks.partitionKey) (hk : keyComplete ks i = true) :
    itemKeyOf ks (keyOf ks i) = itemKeyOf ks i ∧ keyComplete ks (keyOf ks i) = true := by
  obtain ⟨pk, sk⟩ := ks
  cases sk with
  | none =>
    simp only [keyComplete, Bool.and_eq_true, Option.isSome_iff_exists] at hk
    obtain ⟨⟨v, hv⟩, -⟩ := hk
    simp [keyOf, itemKeyOf, keyComplete, attrOf, hv]
  | some s =>
    have hps : ¬ (pk = s) := by
      intro h
      exact hwf (by simp [h])
    simp only [keyComplete, Bool.and_eq_true, Option.isSome_iff_exists] at hk
    obtain ⟨⟨v, hv⟩, v2, hv2⟩ := hk
    simp [keyOf, itemKeyOf, keyComplete, attrOf, hv, hv2, hps]

/-- C2: put/get round-trip. On a facade bound to an existing table whose
schema is well-formed (distinct partition and sort attribute names), writing
a key-complete item with add_item succeeds, and a following get_item with
exactly the key attribute values of that item returns an item equal to the one
written. -/
theorem claim_C2_put_get_roundtrip (n : String) (w : World) (t : TableState) (i : Item)
    (log log2 : List LogEntry)
    (hw : wGet w n = some t)
    (hwf : t.schema.sortKey ≠ some t.schema.partitionKey)
    (hk : keyComplete t.schema i = true) :
    (Demo.add_item ⟨some n⟩ w none i log).1 = .ok () ∧
    (Demo.get_item (Demo.add_item ⟨some n⟩ w none i log).2.1
      (Demo.add_item ⟨some n⟩ w none i log).2.2.1 none (keyOf t.schema i) log2).1 =
      .ok i := by
  have hkk := itemKeyOf_keyOf t.schema i hwf hk
  have hput : svcPutItem w n i = .ok (wSet w n ⟨t.schema,
      t.items.filter (fun j => !decide (itemKeyOf t.schema j = itemKeyOf t.schema i)) ++ [i]⟩) := by
    simp [svcPutItem, hw, hk]
  have hfind :
      List.find? (fun j => decide (itemKeyOf t.schema j = itemKeyOf t.schema (keyOf t.schema i)))
        (t.items.filter (fun j => !decide (itemKeyOf t.schema j = itemKeyOf t.schema i)) ++ [i]) =
        some i := by
    rw [hkk.1, find?_append_of_forall_false]
    · simp [List.find?]
    · intro x hx
      have hx2 := (List.mem_filter.mp hx).2
      simpa using hx2
  have hget : svcGetItem (wSet w n ⟨t.schema,
      t.items.filter (fun j => !decide (itemKeyOf t.schema j = itemKeyOf t.schema i)) ++ [i]⟩)
      n (keyOf t.schema i) = .ok (some i) := by
    simp only [svcGetItem, wGet_wSet_self, hkk.2, if_true]
    exact congrArg Except.ok hfind
  constructor
  · simp [Demo.add_item, Demo.set_table, hput]
  · simp [Demo.add_item, Demo.set_table, hput, Demo.get_item, hget]

theorem claim_C2_put_get_roundtrip_witness :
    (wGet w0 "workshop" = some t0 ∧
     t0.schema.sortKey ≠ some t0.schema.partitionKey ∧
     keyComplete t0.schema item331 = true) ∧
    (Demo.add_item ⟨some "workshop"⟩ w0 none item331 []).1 = .ok () ∧
    (Demo.get_item (Demo.add_item ⟨some "workshop"⟩ w0 none item331 []).2.1
      (Demo.add_item ⟨some "workshop"⟩ w0 none item331 []).2.2.1 none
      (keyOf t0.schema item331) []).1 = .ok item331 :=
  ⟨⟨by decide, by decide, by decide⟩,
   claim_C2_put_get_roundtrip "workshop" w0 t0 item331 [] [] (by decide) (by decide)
     (by decide)⟩

theorem attrLe_total (a b : AttrVal) : AttrVal.le a b = true ∨ AttrVal.le b a = true := by
  cases a with
  | N x =>
    cases b with
    | N y => simpa [AttrVal.le] using Int.le_total x y
    | S y => simp [AttrVal.le]
  | S x =>
    cases b with
    | N y => simp [AttrVal.le]
    | S y => simpa [AttrVal.le] using le_total x y

theorem attrLe_trans {a b c : AttrVal} (h1 : AttrVal.le a b = true)
    (h2 : AttrVal.le b c = true) : AttrVal.le a c = true := by
  cases a with
  | N x =>
    cases b with
    | N y =>
      cases c with
      | N z =>
        simp only [AttrVal.le, decide_eq_true_eq] at *
        omega
      | S z => simp [AttrVal.le]
    | S y =>
      cases c with
      | N z => simp [AttrVal.le] at h2
      | S z => simp [AttrVal.le]
  | S x =>
    cases b with
    | N y => simp [AttrVal.le] at h1
    | S y =>
      cases c with
      | N z => simp [AttrVal.le] at h2
      | S z =>
        simp only [AttrVal.le, decide_eq_true_eq] at *
        exact le_trans h1 h2

theorem itemLeBy_total (sa : Option String) (i j : Item) :
    itemLeBy sa i j = true ∨ itemLeBy sa j i = true := by
  cases sa with
  | none => simp [itemLeBy]
  | some s =>
    simp only [itemLeBy]
    rcases h1 : attrOf i s with _ | a <;> rcases h2 : attrOf j s with _ | b <;> simp
    exact attrLe_total a b

theorem itemLeBy_trans (sa : Option String) {i j k : Item}
    (h1 : itemLeBy sa i j = true) (h2 : itemLeBy sa j k = true) :
    itemLeBy sa i k = true := by
  cases sa with
  | none => simp [itemLeBy]
  | some s =>
    simp only [itemLeBy] at *
    rcases ha : attrOf i s with _ | a <;> rcases hb : attrOf j s with _ | b <;>
      rcases hc : attrOf k s with _ | c <;> simp_all
    exact attrLe_trans h1 h2

instance (sa : Option String) : IsTotal Item (fun i j => itemLeBy sa i j = true) :=
  ⟨itemLeBy_total sa⟩

instance (sa : Option String) : IsTrans Item (fun i j => itemLeBy sa i j = true) :=
  ⟨fun _ _ _ => itemLeBy_trans sa⟩

theorem svcQuery_ok (w : World) (n : String) (t : TableState) (pk : String) (pv : AttrVal)
    (rng : Option (String × AttrVal × AttrVal)) (idx : Option String)
    (hw : wGet w n = some t) :
    svcQuery w n pk pv rng idx =
      .ok (List.insertionSort (fun i j => itemLeBy (sortAttrFor t rng) i j = true)
        (t.items.filter (queryMatches pk pv rng))) := by
  simp [svcQuery, hw]

theorem queryMatches_some_iff (pk : String) (pv : AttrVal) (rk : String) (lo hi : AttrVal)
    (i : Item) :
    queryMatches pk pv (some (rk, lo, hi)) i = true ↔
      attrOf i pk = some pv ∧
        ∃ v, attrOf i rk = some v ∧ AttrVal.le lo v = true ∧ AttrVal.le v hi = true := by
  simp only [queryMatches, Bool.and_eq_true, decide_eq_true_eq]
  constructor
  · rintro ⟨h1, h2⟩
    refine ⟨h1, ?_⟩
    rcases ha : attrOf i rk with _ | v
    · rw [ha] at h2
      simp at h2
    · rw [ha] at h2
      simp only [Bool.and_eq_true] at h2
      exact ⟨v, rfl, h2.1, h2.2⟩
  · rintro ⟨h1, v, hv, hl, hr⟩
    exact ⟨h1, by simp [hv, hl, hr]⟩

/-- C4: on a facade bound to an existing table, query_items with a partition
key and a two-element bounds list returns exactly the stored items whose
partition attribute equals the given value and whose range attribute value v
satisfies low le v and v le high, inclusive on both ends. -/
theorem claim_C4_query_between_inclusive (n : String) (w : World) (t : TableState)
    (pk rk : String) (pv lo hi : AttrVal) (idx : Option String) (log : List LogEntry)
    (hw : wGet w n = some t) :
    ∃ l, (Demo.query_items ⟨some n⟩ w pk pv (some rk) (some [lo, hi]) idx none log).1 =
        .ok l ∧
      ∀ i, i ∈ l ↔ i ∈ t.items ∧ attrOf i pk = some pv ∧
        ∃ v, attrOf i rk = some v ∧ AttrVal.le lo v = true ∧ AttrVal.le v hi = true := by
  have hq := svcQuery_ok w n t pk pv (some (rk, lo, hi)) idx hw
  refine ⟨List.insertionSort (fun i j => itemLeBy (sortAttrFor t (some (rk, lo, hi))) i j = true)
      (t.items.filter (queryMatches pk pv (some (rk, lo, hi)))), ?_, ?_⟩
  · simp [Demo.query_items, Demo.set_table, List.get?, hq]
  · intro i
    rw [List.mem_insertionSort, List.mem_filter, queryMatches_some_iff]

/-- C8: on a facade bound to an existing table, query_items (with or without
a range condition) never fails: it returns the service-delivered sequence,
which is empty when no stored item satisfies the key condition, is sorted
ascending by the relevant sort attribute, and contains exactly the items
satisfying the key condition. -/
theorem claim_C8_query_empty_or_ordered (n : String) (w : World) (t : TableState)
    (pk : String) (pv : AttrVal) (rng : Option (String × AttrVal × AttrVal))
    (idx : Option String) (log : List LogEntry) (hw : wGet w n = some t) :
    ∃ l, (Demo.query_items ⟨some n⟩ w pk pv (rng.map fun z => z.1)
        (rng.map fun z => [z.2.1, z.2.2]) idx none log).1 = .ok l ∧
      ((∀ i ∈ t.items, queryMatches pk pv rng i = false) → l = []) ∧
      List.Sorted (fun i j => itemLeBy (sortAttrFor t rng) i j = true) l ∧
      (∀ i, i ∈ l ↔ i ∈ t.items ∧ queryMatches pk pv rng i = true) := by
  have hq := svcQuery_ok w n t pk pv rng idx hw
  refine ⟨List.insertionSort (fun i j => itemLeBy (sortAttrFor t rng) i j = true)
      (t.items.filter (queryMatches pk pv rng)), ?_, ?_, ?_, ?_⟩
  · cases rng with
    | none => simp [Demo.query_items, Demo.set_table, hq]
    | some z =>
      obtain ⟨r, lo, hi⟩ := z
      simp [Demo.query_items, Demo.set_table, List.get?, hq]
  · intro hnone
    have hfil : t.items.filter (queryMatches pk pv rng) = [] :=
      List.filter_eq_nil_iff.mpr fun a ha => by simp [hnone a ha]
    simp [hfil]
  · exact List.sorted_insertionSort _ _
  · intro i
    rw [List.mem_insertionSort, List.mem_filter]

theorem claim_C4_witness :
    wGet w0 "workshop" = some t0 ∧
    (∃ l, (Demo.query_items ⟨some "workshop"⟩ w0 "customerID" (.S "111222")
        (some "orderSum") (some [.N 7, .N 10]) (some "orderSum-index") none []).1 = .ok l ∧
      ∀ i, i ∈ l ↔ i ∈ t0.items ∧ attrOf i "customerID" = some (.S "111222") ∧
        ∃ v, attrOf i "orderSum" = some v ∧ AttrVal.le (.N 7) v = true ∧
          AttrVal.le v (.N 10) = true) :=
  ⟨by decide,
   claim_C4_query_between_inclusive "workshop" w0 t0 "customerID" "orderSum"
     (.S "111222") (.N 7) (.N 10) (some "orderSum-index") [] (by decide)⟩

theorem claim_C8_witness :
    wGet w0 "workshop" = some t0 ∧
    (∃ l, (Demo.query_items ⟨some "workshop"⟩ w0 "customerID" (.S "999999")
        ((some ("orderID", AttrVal.N 0, AttrVal.N 5)).map fun z => z.1)
        ((some ("orderID", AttrVal.N 0, AttrVal.N 5)).map fun z => [z.2.1, z.2.2])
        none none []).1 = .ok l ∧
      ((∀ i ∈ t0.items,
          queryMatches "customerID" (.S "999999") (some ("orderID", .N 0, .N 5)) i = false) →
        l = []) ∧
      List.Sorted
        (fun i j => itemLeBy (sortAttrFor t0 (some ("orderID", .N 0, .N 5))) i j = true) l ∧
      (∀ i, i ∈ l ↔ i ∈ t0.items ∧
        queryMatches "customerID" (.S "999999") (some ("orderID", .N 0, .N 5)) i = true)) :=
  ⟨by decide,
   claim_C8_query_empty_or_ordered "workshop" w0 t0 "customerID" (.S "999999")
     (some ("orderID", .N 0, .N 5)) none [] (by decide)⟩

end DynamoDemo
